import Mathlib

/-!
A shallow embedding of katdal's S3 chunk store (`katdal/chunkstore_s3.py`),
together with proofs about the behaviour of its operations.

The embedding models:
 * the error taxonomy of the store (`StoreUnavailable`, `ChunkNotFound`,
   `BadChunk`, `AuthorisationFailed`), plus a constructor for Python
   exceptions (such as `ValueError`) that are not part of the taxonomy and
   are not translated at the store boundary;
 * NPY payload decoding (`read_array`);
 * HTTP status translation (`_raise_for_status`);
 * the session pool (`_Pool`) and its context-manager protocol;
 * bearer-token authentication (`_BearerAuth`, `_auth_factory`);
 * the store operations `get_chunk`, `put_chunk`, `create_array`,
   `list_chunk_ids` and the sentinel written by `mark_complete`;
 * the chunk planner `generate_chunks` (modelled from the spec, since
   `katdal/chunkstore.py` itself is not part of the sources; its reference
   values come from `katdal/test/test_chunkstore.py`).

Machine integers do not overflow in any of the modelled code paths (Python
integers are unbounded), so `Nat` is used throughout.  Byte strings are
modelled as `List Nat` and text strings as `String` (operated on through
their `List Char` data where Python string primitives are involved).
-/

/-- The error taxonomy of the chunk store.  `AuthorisationFailed` is a
subclass of `StoreUnavailable` in the source; the claims only need the two
to be distinguishable, so the taxonomy is flattened into one inductive.
`valueError` stands for a plain Python `ValueError` that is raised by code
the store calls but is not one of the store's own error types. -/
inductive StoreError where
  | storeUnavailable : StoreError
  | chunkNotFound : StoreError
  | badChunk : StoreError
  | authorisationFailed : StoreError
  | valueError (msg : String) : StoreError
deriving DecidableEq, Repr

/-- A numpy dtype, reduced to the attributes the store consults: its name
(standing in for the descr string, so that distinct dtypes compare
unequal), its itemsize in bytes, and its `hasobject` flag. -/
structure Dtype where
  name : String
  itemsize : Nat
  hasobject : Bool
deriving DecidableEq, Repr

def float64 : Dtype := ⟨"float64", 8, false⟩

def boolDtype : Dtype := ⟨"bool", 1, false⟩

def complex64 : Dtype := ⟨"complex64", 8, false⟩

/-- A numpy ndarray as the store sees one: logical shape, dtype, the raw
buffer bytes, and whether the buffer is laid out in column-major
(Fortran) order.  Two arrays are element-wise equal with the same shape
and dtype exactly when these four fields agree. -/
structure Chunk where
  shape : List Nat
  dtype : Dtype
  data : List Nat
  fortran : Bool
deriving DecidableEq, Repr

def listProd (l : List Nat) : Nat := l.foldl (· * ·) 1

/-- The representation invariant of a real ndarray: the buffer holds
exactly `itemsize` bytes per element. -/
def Chunk.wellFormed (c : Chunk) : Prop :=
  c.data.length = listProd c.shape * c.dtype.itemsize

instance (c : Chunk) : Decidable c.wellFormed := by
  unfold Chunk.wellFormed; infer_instance

/-- An NPY file as stored in S3, in parsed form: the format version from
the magic string, the three header fields (shape, fortran_order, descr)
and the body bytes that follow the header. -/
structure NpyPayload where
  major : Nat
  minor : Nat
  shape : List Nat
  fortranOrder : Bool
  descr : Dtype
  body : List Nat
deriving DecidableEq, Repr

/-- Modelled from the spec: `npy_header_and_body` (katdal/chunkstore.py, not
under src/) serialises a chunk into an NPY header (format version, shape,
fortran flag, dtype descr) followed by the raw contiguous buffer bytes.
The payload is kept in parsed form; `read_array` consumes the same form. -/
def npy_header_and_body (c : Chunk) : NpyPayload :=
  { major := 1, minor := 0, shape := c.shape, fortranOrder := c.fortran,
    descr := c.dtype, body := c.data }

/-- Model of `read_array` from chunkstore_s3.py.  Reads the magic/version, rejects
unsupported versions and object dtypes, allocates `count` elements and
reads the body into the buffer with `readinto` (which delivers at most the
requested number of bytes, fewer when the stream is short), failing when
the byte count read differs from the byte count expected.  A
fortran-ordered payload is returned by reversing the shape and transposing
without copying, which leaves the logical shape equal to the header shape
and the buffer in column-major order.  All failures are plain Python
`ValueError`s. -/
def read_array (p : NpyPayload) : Except StoreError Chunk :=
  if ¬((p.major = 1 ∧ p.minor = 0) ∨ (p.major = 2 ∧ p.minor = 0)) then
    .error (.valueError ("Unsupported .npy version (" ++ toString p.major ++ ", "
      ++ toString p.minor ++ ")"))
  else if p.descr.hasobject then
    .error (.valueError "Object arrays are not supported")
  else
    let count := listProd p.shape
    let nbytes := count * p.descr.itemsize
    let bytesRead := min p.body.length nbytes
    if bytesRead ≠ nbytes then
      .error (.valueError ("Error reading numpy array from S3: expected "
        ++ toString nbytes ++ " bytes, got " ++ toString bytesRead))
    else
      .ok { shape := p.shape, dtype := p.descr, data := p.body.take nbytes,
            fortran := p.fortranOrder }

/-- A half-open, unit-stride slice along one dimension (Python
`slice(start, stop, 1)`); unit stride is built into the representation,
matching the validated form accepted by `chunk_metadata`. -/
structure Slice where
  start : Nat
  stop : Nat
deriving DecidableEq, Repr

def sliceShape (ss : List Slice) : List Nat := ss.map (fun s => s.stop - s.start)

/-- Zero-padded fixed-width decimal rendering of a chunk's start offset,
as in the index strings of chunk names (e.g. "00001_00512"). -/
def zeroPad5 (n : Nat) : String :=
  let s := toString n
  String.mk (List.replicate (5 - s.length) '0') ++ s

def indexString (ss : List Slice) : String :=
  String.intercalate "_" (ss.map (fun s => zeroPad5 s.start))

/-- Modelled from the spec: `ChunkStore.chunk_metadata` (katdal/chunkstore.py,
not under src/).  Validates the slice specification and the optional chunk
against the dtype, computes the expected shape as `stop - start` per
dimension, and returns the chunk name `<array_name>/<index-string>`
together with that shape.  Validation failures raise `BadChunk`: an object
dtype, or a supplied chunk whose shape or dtype differs from the expected
ones. -/
def chunk_metadata (arrayName : String) (ss : List Slice) (dt : Dtype)
    (chunk? : Option Chunk) : Except StoreError (String × List Nat) :=
  let shape := sliceShape ss
  if dt.hasobject then .error .badChunk
  else
    match chunk? with
    | some c =>
        if c.shape ≠ shape ∨ c.dtype ≠ dt then .error .badChunk
        else .ok (arrayName ++ "/" ++ indexString ss, shape)
    | none => .ok (arrayName ++ "/" ++ indexString ss, shape)

/-- The objects held by the S3 service, keyed by object key.  A put
prepends, and lookup takes the first binding, so later puts shadow
earlier ones. -/
abbrev S3Objects := List (String × NpyPayload)

def storeFind : S3Objects → String → Option NpyPayload
  | [], _ => none
  | (k, v) :: rest, key => if k = key then some v else storeFind rest key

/-- The S3 key of a chunk: the chunk name with the `.npy` extension
appended (`_chunk_url` in the source, with URL quoting and the endpoint
part elided since keys here are already plain object keys). -/
def chunkKey (name : String) : String := name ++ ".npy"

/-- Model of `S3ChunkStore.put_chunk`: derive the chunk name, serialise the chunk as
an NPY payload and PUT it at `<chunk_name>.npy`.  The `Content-MD5`
integrity header and the multipart body are transport-level details with
no effect on the stored bytes and are elided. -/
def put_chunk (st : S3Objects) (arrayName : String) (ss : List Slice)
    (c : Chunk) : Except StoreError S3Objects :=
  match chunk_metadata arrayName ss c.dtype (some c) with
  | .error e => .error e
  | .ok (name, _) => .ok ((chunkKey name, npy_header_and_body c) :: st)

/-- Model of `S3ChunkStore.get_chunk`: derive the chunk name and expected shape, GET
`<chunk_name>.npy` (a missing object surfaces as 404/403 on an object
path, which `_raise_for_status` turns into `ChunkNotFound`), decode the
NPY payload with `read_array`, and finally raise `BadChunk` when the
decoded array's shape or dtype differs from the expected ones.  Errors
raised by `read_array` are plain `ValueError`s, which are not in the
store's error map and therefore propagate unchanged. -/
def get_chunk (st : S3Objects) (arrayName : String) (ss : List Slice)
    (dt : Dtype) : Except StoreError Chunk :=
  match chunk_metadata arrayName ss dt none with
  | .error e => .error e
  | .ok (name, shape) =>
      match storeFind st (chunkKey name) with
      | none => .error .chunkNotFound
      | some payload =>
          match read_array payload with
          | .error e => .error e
          | .ok c =>
              if c.shape ≠ shape ∨ c.dtype ≠ dt then .error .badChunk
              else .ok c

/-- C1: round-trip law.  For every valid triple of array name, unit-stride
slice specification and well-formed chunk whose dtype is not an object
dtype and whose shape matches the slices, `get_chunk` after `put_chunk` on
the same store returns the chunk itself (same shape, dtype and buffer). -/
theorem c1_put_get_roundtrip (st : S3Objects) (an : String) (ss : List Slice)
    (c : Chunk) (hobj : c.dtype.hasobject = false)
    (hshape : c.shape = sliceShape ss) (hwf : c.wellFormed) :
    (put_chunk st an ss c).bind (fun st2 => get_chunk st2 an ss c.dtype) =
      .ok c := by
  obtain ⟨csh, cdt, cdata, cf⟩ := c
  simp only [Chunk.wellFormed] at hwf
  simp only at hobj hshape hwf
  subst hshape
  simp [put_chunk, get_chunk, chunk_metadata, hobj, storeFind, chunkKey,
    read_array, npy_header_and_body, Except.bind, ← hwf]

/-- Witness for C1: a concrete 2-element float64 chunk stored at slice
`(3, 5)` of array `b/x` round-trips unchanged. -/
theorem c1_put_get_roundtrip_witness :
    (put_chunk [] "b/x" [⟨3, 5⟩] ⟨[2], float64, List.replicate 16 7, false⟩).bind
      (fun st2 => get_chunk st2 "b/x" [⟨3, 5⟩] float64) =
      .ok ⟨[2], float64, List.replicate 16 7, false⟩ :=
  c1_put_get_roundtrip [] "b/x" [⟨3, 5⟩]
    ⟨[2], float64, List.replicate 16 7, false⟩ rfl rfl (by decide)

/-- Python `str.split(sep)` for a single-character separator, on the
character data of the string: splits at every occurrence of the
separator, keeping empty parts. -/
def splitParts : List Char → List Char → List String
  | [], acc => [String.mk acc.reverse]
  | ch :: rest, acc =>
      if ch = '/' then String.mk acc.reverse :: splitParts rest []
      else splitParts rest (ch :: acc)

/-- The non-empty path segments of a URL path, as computed in
`_raise_for_status` from `S3ChunkStore.split` (the base-class splitter on
the name separator '/', modelled from the spec) followed by filtering out
empty parts. -/
def pathParts (path : String) : List String :=
  (splitParts path.data []).filter (fun part => part ≠ "")

/-- Model of `_raise_for_status` from chunkstore_s3.py.
`requests.Response.raise_for_status` raises `requests.HTTPError` exactly
for status codes 400-599; the handler then classifies the failure from
the status code and the number of non-empty segments of the URL path
(at most one segment means the request addressed a bucket). -/
def raise_for_status (status : Nat) (path : String) : Option StoreError :=
  if 400 ≤ status ∧ status < 600 then
    let isBucket := (pathParts path).length ≤ 1
    if status = 401 then some .authorisationFailed
    else if (status = 403 ∨ status = 404) ∧ ¬isBucket then some .chunkNotFound
    else some .storeUnavailable
  else none

/-- C2: HTTP status-to-error translation.  For every response whose status
is an error status (the 4xx/5xx codes for which an HTTP error is raised at
all): 401 yields AuthorisationFailed; 403/404 on a path with more than one
non-empty segment (an object) yields ChunkNotFound; 403/404 on a path
with at most one segment (a bucket) yields StoreUnavailable; every other
error status yields StoreUnavailable. -/
theorem c2_status_translation (status : Nat) (path : String)
    (herr : 400 ≤ status ∧ status < 600) :
    (status = 401 → raise_for_status status path = some .authorisationFailed) ∧
    ((status = 403 ∨ status = 404) → 1 < (pathParts path).length →
        raise_for_status status path = some .chunkNotFound) ∧
    ((status = 403 ∨ status = 404) → (pathParts path).length ≤ 1 →
        raise_for_status status path = some .storeUnavailable) ∧
    (status ≠ 401 → status ≠ 403 → status ≠ 404 →
        raise_for_status status path = some .storeUnavailable) := by
  refine ⟨?_, ?_, ?_, ?_⟩ <;> intros <;>
    simp_all [raise_for_status] <;> omega

/-- Witness for C2: status 404 on the object path `/b/o.npy` (two
segments) is translated to ChunkNotFound. -/
theorem c2_status_translation_witness :
    raise_for_status 404 "/b/o.npy" = some .chunkNotFound :=
  (c2_status_translation 404 "/b/o.npy" (by decide)).2.1 (Or.inr rfl) (by decide)

/-- C4 amended: for every `get_chunk` call that finds a stored payload
which is a well-formed NPY file (supported version, non-object dtype,
body length agreeing with its own header) whose declared shape or dtype
disagrees with the dtype and shape expected for the requested slice,
`get_chunk` raises BadChunk.  (This covers the too-few and too-many
stored-bytes cases of the tests, where the stored dtype is smaller or
larger than the requested one.) -/
theorem c4_mismatch_raises_badchunk (st : S3Objects) (an : String)
    (ss : List Slice) (dt : Dtype) (p : NpyPayload)
    (hdt : dt.hasobject = false)
    (hkey : storeFind st (chunkKey (an ++ "/" ++ indexString ss)) = some p)
    (hver : (p.major = 1 ∧ p.minor = 0) ∨ (p.major = 2 ∧ p.minor = 0))
    (hpo : p.descr.hasobject = false)
    (hlen : p.body.length = listProd p.shape * p.descr.itemsize)
    (hmm : p.shape ≠ sliceShape ss ∨ p.descr ≠ dt) :
    get_chunk st an ss dt = .error .badChunk := by
  unfold get_chunk
  rw [show chunk_metadata an ss dt none =
        .ok (an ++ "/" ++ indexString ss, sliceShape ss) from by
      simp [chunk_metadata, hdt]]
  dsimp only
  rw [hkey]
  dsimp only
  rw [show read_array p = .ok ⟨p.shape, p.descr,
        p.body.take (listProd p.shape * p.descr.itemsize), p.fortranOrder⟩ from by
      simp [read_array, hver, hpo, hlen]]
  dsimp only
  simp [hmm]

/-- Witness for the amended C4: the stored payload is a well-formed bool
array of shape (2,) (2 bytes, fewer than the 16 expected), the request
asks for float64 of shape (2,); `get_chunk` raises BadChunk. -/
theorem c4_mismatch_raises_badchunk_witness :
    get_chunk [("b/x/00003.npy", ⟨1, 0, [2], false, boolDtype, [1, 1]⟩)]
      "b/x" [⟨3, 5⟩] float64 = .error .badChunk :=
  c4_mismatch_raises_badchunk
    [("b/x/00003.npy", ⟨1, 0, [2], false, boolDtype, [1, 1]⟩)] "b/x" [⟨3, 5⟩]
    float64 ⟨1, 0, [2], false, boolDtype, [1, 1]⟩ rfl rfl (Or.inl ⟨rfl, rfl⟩)
    rfl rfl (Or.inr (by decide))

/-- A stored object whose NPY header declares float64 of shape (2,)
(16 body bytes) but whose body holds only 10 bytes: the payload's byte
length disagrees with the dtype and shape expected for the requested
slice. -/
def truncStore : S3Objects :=
  [("b/x/00000.npy", ⟨1, 0, [2], false, float64, List.replicate 10 0⟩)]

/-- Counterexample to C4 as stated: on a stored payload whose byte length
(10) disagrees with the bytes expected for the requested slice (16),
`get_chunk` does not raise BadChunk; the bare `ValueError` raised by
`read_array` is not in the store's error map and escapes unchanged. -/
theorem c4_counterexample :
    get_chunk truncStore "b/x" [⟨0, 2⟩] float64 ≠ .error .badChunk ∧
    get_chunk truncStore "b/x" [⟨0, 2⟩] float64 =
      .error (.valueError
        "Error reading numpy array from S3: expected 16 bytes, got 10") := by
  have h : get_chunk truncStore "b/x" [⟨0, 2⟩] float64 =
      .error (.valueError
        "Error reading numpy array from S3: expected 16 bytes, got 10") := by rfl
  exact ⟨by rw [h]; simp, h⟩

/-- Model of `_Pool` from chunkstore_s3.py: a LIFO free-list of sessions together
with the counter the session factory draws fresh session identities from.
The head of `sessions` is the most recently released session (the end of
the Python list). -/
structure Pool where
  sessions : List Nat
  nextId : Nat
deriving DecidableEq, Repr

/-- Model of `_Pool.get`: pop a session from the pool, or construct a fresh one via
the factory when the pool is empty. -/
def Pool.get : Pool → Nat × Pool
  | ⟨[], n⟩ => (n, ⟨[], n + 1⟩)
  | ⟨s :: rest, n⟩ => (s, ⟨rest, n⟩)

/-- Model of `_Pool.put`: return a session to the pool. -/
def Pool.put (p : Pool) (s : Nat) : Pool := ⟨s :: p.sessions, p.nextId⟩

/-- Model of `_Pool.__call__`: the `@contextlib.contextmanager` generator
`item = self.get(); yield item; self.put(item)`.  When the body raises,
the exception is thrown into the generator at the yield point and
propagates out of it, so `self.put(item)` on the line after the yield is
never executed: the session is returned to the pool only on the success
path. -/
def Pool.withSession {α : Type} (p : Pool) (body : Nat → Except StoreError α) :
    Except StoreError α × Pool :=
  let r := p.get
  match body r.1 with
  | .ok a => (.ok a, r.2.put r.1)
  | .error e => (.error e, r.2)

/-- Model of `S3ChunkStore.request`: run one HTTP request on a session from the
pool and raise HTTP errors via `_raise_for_status`.  The response status
and URL path stand in for the transport; every store operation
(`get_chunk`, `put_chunk`, `has_chunk`, `list_chunk_ids`,
`mark_complete`, `is_complete`) goes through this context manager. -/
def request (p : Pool) (status : Nat) (path : String) :
    Except StoreError Unit × Pool :=
  p.withSession (fun _ =>
    match raise_for_status status path with
    | some e => Except.error e
    | none => Except.ok ())

/-- C3 evaluation: a pool holding one idle session (id 7) runs a request
that fails with HTTP 404 (ChunkNotFound).  The operation fails and the
session is NOT returned to the pool: the pool ends empty, leaking the
session, contrary to the claimed release-on-every-failure-path
invariant.  On the success path (status 200) the session is returned. -/
theorem c3_session_leak_on_failure :
    (request ⟨[7], 8⟩ 404 "/b/o.npy").2 = ⟨[], 8⟩ ∧
    (request ⟨[7], 8⟩ 404 "/b/o.npy").1 = .error .chunkNotFound ∧
    (request ⟨[7], 8⟩ 200 "/b/o.npy").2 = ⟨[7], 8⟩ := by
  refine ⟨rfl, rfl, rfl⟩

/-- Character-list test that `pat` is an initial run of `l` (used to model
Python's `str.startswith` and, on reversed data, `str.endswith`). -/
def chPre : List Char → List Char → Bool
  | [], _ => true
  | _ :: _, [] => false
  | a :: as, b :: bs => if a = b then chPre as bs else false

/-- Python `str.startswith`. -/
def pyStartsWith (s lead : String) : Bool := chPre lead.data s.data

/-- Python `str.endswith`. -/
def pyEndsWith (s tail : String) : Bool := chPre tail.data.reverse s.data.reverse

/-- Python `str.lstrip` with a single-character argument: remove every
leading occurrence of that character. -/
def pyLStrip (s : String) (c : Char) : String :=
  String.mk (s.data.dropWhile (fun ch => ch == c))

/-- Python `key[len(prefix) + 1 : -4]`: drop the array path and the
following separator from the front and the `.npy` extension from the
back of an object key. -/
def stripKey (pre : String) (key : String) : String :=
  let l := key.data.drop (pre.data.length + 1)
  String.mk (l.take (l.length - 4))

/-- The final comprehension of `S3ChunkStore.list_chunk_ids`:
`[key[len(prefix) + 1:-4] for key in keys if key.endswith('.npy')]`. -/
def chunkIdsOf (pre : String) (keys : List String) : List String :=
  (keys.filter (fun k => pyEndsWith k ".npy")).map (stripKey pre)

/-- An XML element as `ElementTree` models one: its text and its number of
child elements.  In a boolean context Python evaluates an Element to
`len(element) != 0`, i.e. an element without children is falsy even when
it is present and has text. -/
structure XmlElem where
  text : String
  children : Nat
deriving DecidableEq, Repr

/-- One page of an S3 bucket-listing response, in parsed form: the Key
texts, and the find results for the IsTruncated and NextMarker elements
(`none` when the element is absent). -/
structure ListingPage where
  keys : List String
  isTruncated : Option XmlElem
  nextMarker : Option XmlElem
deriving DecidableEq, Repr

/-- The paging loop of `S3ChunkStore.list_chunk_ids`.  `server` maps the
`marker` request parameter (absent on the first request) to the parsed
response page.  Returns the accumulated raw keys together with the list
of markers used, one per request issued.  The source's `while more:` loop
is given fuel, since nothing in the code bounds the number of
iterations; exhausted fuel returns what was accumulated so far.
Faithful to the source, the next marker is taken from the NextMarker
element only when `if next_marker:` finds that element truthy (it has
child elements); otherwise from the last accumulated key (`keys[-1]`);
and when there is no accumulated key at all the loop warns and stops. -/
def listSteps (server : Option String → ListingPage) :
    Nat → Option String → List String → List (Option String) →
    List String × List (Option String)
  | 0, _, acc, ms => (acc, ms)
  | fuel + 1, marker, acc, ms =>
      let page := server marker
      let acc2 := acc ++ page.keys
      let ms2 := ms ++ [marker]
      let more := match page.isTruncated with
        | some t => t.text == "true"
        | none => false
      if more then
        match page.nextMarker with
        | some nm =>
            if nm.children ≠ 0 then listSteps server fuel (some nm.text) acc2 ms2
            else
              match acc2.getLast? with
              | some k => listSteps server fuel (some k) acc2 ms2
              | none => (acc2, ms2)
        | none =>
            match acc2.getLast? with
            | some k => listSteps server fuel (some k) acc2 ms2
            | none => (acc2, ms2)
      else (acc2, ms2)

/-- Model of `S3ChunkStore.list_chunk_ids`: page through the bucket listing, then
strip the array path and the `.npy` extension from every key with that
extension. -/
def list_chunk_ids (server : Option String → ListingPage) (fuel : Nat)
    (pre : String) : List String :=
  chunkIdsOf pre (listSteps server fuel none [] []).1

/-- A server whose first page is truncated, holds the single key
`p/00000.npy`, and carries a text-only NextMarker element pointing at
`p/00001.npy`; any follow-up request gets an empty final page. -/
def truncatedServer : Option String → ListingPage
  | none => ⟨["p/00000.npy"], some ⟨"true", 0⟩, some ⟨"p/00001.npy", 0⟩⟩
  | some _ => ⟨[], some ⟨"false", 0⟩, none⟩

/-- C5 evaluation: the first response carries an explicit NextMarker
(`p/00001.npy`, a text-only element with no children), yet the second
request is issued with marker `p/00000.npy`, the last key seen: because
`if next_marker:` tests ElementTree truthiness rather than presence, a
childless NextMarker element is falsy and the NextMarker branch is never
taken for real S3 responses. -/
theorem c5_next_marker_ignored :
    (listSteps truncatedServer 10 none [] []).2 =
      [none, some "p/00000.npy"] ∧
    (truncatedServer none).nextMarker = some ⟨"p/00001.npy", 0⟩ :=
  ⟨rfl, rfl⟩

/-- The key under which the completion sentinel of an array appears in a
bucket listing: `mark_complete` writes the zero-length object
`join(array_name, 'complete')`, which is `<array path>/complete` relative
to the bucket. -/
def markCompleteKey (arrayPath : String) : String := arrayPath ++ "/complete"

/-- C10: `list_chunk_ids` omits every object key that does not end in
`.npy`; in particular the completion sentinel written by `mark_complete`
never appears among the returned chunk index strings, wherever it occurs
in the listing. -/
theorem c10_sentinel_never_listed (pre : String) (ks1 ks2 : List String)
    (k : String) (hk : pyEndsWith k ".npy" = false) :
    chunkIdsOf pre (ks1 ++ k :: ks2) = chunkIdsOf pre (ks1 ++ ks2) ∧
    pyEndsWith (markCompleteKey pre) ".npy" = false := by
  constructor
  · simp [chunkIdsOf, List.filter_append, List.filter_cons, hk]
  · have hd : (markCompleteKey pre).data =
        pre.data ++ ['/', 'c', 'o', 'm', 'p', 'l', 'e', 't', 'e'] := by
      simp [markCompleteKey, String.data_append,
        show "/complete".data = ['/', 'c', 'o', 'm', 'p', 'l', 'e', 't', 'e']
          from rfl]
    unfold pyEndsWith
    rw [hd, List.reverse_append,
      show (['/', 'c', 'o', 'm', 'p', 'l', 'e', 't', 'e'] : List Char).reverse =
        ['e', 't', 'e', 'l', 'p', 'm', 'o', 'c', '/'] from rfl,
      show ".npy".data.reverse = ['y', 'p', 'n', '.'] from rfl]
    simp [chPre]

/-- Witness for C10: with array path `x`, a listing holding the chunk key
`x/00000.npy` and the sentinel `x/complete` yields the same chunk ids as
the listing without the sentinel. -/
theorem c10_sentinel_never_listed_witness :
    chunkIdsOf "x" (["x/00000.npy"] ++ markCompleteKey "x" :: []) =
      chunkIdsOf "x" (["x/00000.npy"] ++ []) ∧
    pyEndsWith (markCompleteKey "x") ".npy" = false :=
  c10_sentinel_never_listed "x" ["x/00000.npy"] [] (markCompleteKey "x")
    (by decide)

/-- Set a header in a requests-style header mapping (assignment to
`r.headers[name]`). -/
def setHeader (hs : List (String × String)) (k v : String) :
    List (String × String) :=
  hs.filter (fun h => h.1 != k) ++ [(k, v)]

/-- Model of `_BearerAuth`: the state kept by a constructed bearer-token auth
handler.  `pres` is the token's `prefix` claim, the list of authorised
path leaders. -/
structure BearerAuth where
  pres : List String
  token : String
deriving DecidableEq, Repr

/-- Model of `_BearerAuth.__init__`.  JWT decoding itself is an external
collaborator; the token's decoded claims are therefore passed in directly,
reduced to the optional `prefix` claim.  A token without a `prefix` claim
is rejected with AuthorisationFailed at construction. -/
def mkBearerAuth (claims : Option (List String)) (token : String) :
    Except StoreError BearerAuth :=
  match claims with
  | none => .error .authorisationFailed
  | some ps => .ok ⟨ps, token⟩

/-- Model of `_BearerAuth.__call__`: runs while the request is being prepared,
before anything is sent.  Takes the URL path, strips leading slashes, and
checks it starts with one of the authorised leaders; on failure the
handler raises AuthorisationFailed and no request object is produced (so
no network call happens); on success the `Authorization: Bearer <token>`
header is attached to the outgoing request. -/
def bearerCall (a : BearerAuth) (urlPath : String)
    (hs : List (String × String)) :
    Except StoreError (List (String × String)) :=
  let path := pyLStrip urlPath '/'
  if a.pres.any (fun p => pyStartsWith path p) then
    .ok (setHeader hs "Authorization" ("Bearer " ++ a.token))
  else .error .authorisationFailed

/-- C6: bearer-token pre-flight authorisation.  A token without a `prefix`
claim is rejected at construction; a prepared request whose path (leading
slashes stripped) starts with none of the claim's leaders fails with
AuthorisationFailed before any network call; otherwise the
`Authorization: Bearer <token>` header is attached. -/
theorem c6_bearer_preflight :
    (∀ tok, mkBearerAuth none tok = .error .authorisationFailed) ∧
    (∀ (a : BearerAuth) (urlPath : String) (hs : List (String × String)),
      (a.pres.any fun p => pyStartsWith (pyLStrip urlPath '/') p) = false →
      bearerCall a urlPath hs = .error .authorisationFailed) ∧
    (∀ (a : BearerAuth) (urlPath : String) (hs : List (String × String)),
      (a.pres.any fun p => pyStartsWith (pyLStrip urlPath '/') p) = true →
      bearerCall a urlPath hs =
        .ok (setHeader hs "Authorization" ("Bearer " ++ a.token))) := by
  refine ⟨fun tok => rfl, fun a u hs h => ?_, fun a u hs h => ?_⟩ <;>
    simp [bearerCall, h]

/-- Witness for C6: a token authorising only paths under `cb1/` rejects a
request for `/other/obj` without producing a request, and authorises
`/cb1/obj` with the bearer header attached. -/
theorem c6_bearer_preflight_witness :
    bearerCall ⟨["cb1/"], "tok"⟩ "/other/obj" [] =
      .error .authorisationFailed ∧
    bearerCall ⟨["cb1/"], "tok"⟩ "/cb1/obj" [] =
      .ok [("Authorization", "Bearer tok")] :=
  ⟨c6_bearer_preflight.2.1 ⟨["cb1/"], "tok"⟩ "/other/obj" [] (by decide),
   c6_bearer_preflight.2.2 ⟨["cb1/"], "tok"⟩ "/cb1/obj" [] (by decide)⟩

/-- The auth handler chosen at store construction. -/
inductive AuthHandler where
  | bearer (a : BearerAuth) : AuthHandler
  | aws (accessKey secretKey : String) : AuthHandler
deriving DecidableEq, Repr

/-- Model of `_auth_factory`: turns either a JWT token or AWS credentials into an
auth handler, at store construction and before any network interaction.
A token is a pair of its opaque text and its decoded claims (the `prefix`
claim).  Specifying both a token and credentials raises
AuthorisationFailed; a token with a URL whose scheme is not `https` and
whose hostname is not `127.0.0.1` raises AuthorisationFailed. -/
def auth_factory (scheme hostname : String)
    (token : Option (String × Option (List String)))
    (credentials : Option (String × String)) :
    Except StoreError (Option AuthHandler) :=
  match token, credentials with
  | some _, some _ => .error .authorisationFailed
  | some (tok, claims), none =>
      if scheme ≠ "https" ∧ hostname ≠ "127.0.0.1" then
        .error .authorisationFailed
      else (mkBearerAuth claims tok).map (fun a => some (.bearer a))
  | none, some (ak, sk) => .ok (some (.aws ak sk))
  | none, none => .ok none

/-- C9: token transport restriction.  With a bearer token, a URL whose
scheme is not https and whose hostname is not 127.0.0.1 makes the
factory raise AuthorisationFailed before any network interaction; and
supplying both a token and static credentials raises AuthorisationFailed
regardless of URL. -/
theorem c9_token_transport_restriction (scheme hostname : String)
    (tk : String × Option (List String)) :
    (scheme ≠ "https" → hostname ≠ "127.0.0.1" →
      auth_factory scheme hostname (some tk) none =
        .error .authorisationFailed) ∧
    (∀ cr : String × String,
      auth_factory scheme hostname (some tk) (some cr) =
        .error .authorisationFailed) := by
  refine ⟨fun h1 h2 => ?_, fun cr => rfl⟩
  obtain ⟨tok, claims⟩ := tk
  simp [auth_factory, h1, h2]

/-- Witness for C9: an http URL at a non-local host with a token is
rejected, as is a token combined with credentials. -/
theorem c9_token_transport_restriction_witness :
    auth_factory "http" "s3.example.com" (some ("tok", some ["cb1/"])) none =
      .error .authorisationFailed ∧
    auth_factory "https" "s3.example.com" (some ("tok", some ["cb1/"]))
      (some ("access", "secret")) = .error .authorisationFailed :=
  ⟨(c9_token_transport_restriction "http" "s3.example.com"
      ("tok", some ["cb1/"])).1 (by decide) (by decide),
   (c9_token_transport_restriction "https" "s3.example.com"
      ("tok", some ["cb1/"])).2 ("access", "secret")⟩

/-- The buckets existing on the S3 service. -/
structure S3State where
  buckets : List String
deriving DecidableEq, Repr

/-- The first path segment of an array name:
`array_name.split(NAME_SEP)[0]` with NAME_SEP = '/'. -/
def bucketOf (arrayName : String) : String :=
  (splitParts arrayName.data []).headD ""

/-- The S3 service's response to `PUT <bucket>`: 409 when the bucket
already exists, 200 (and the bucket created) otherwise. -/
def serverPutBucket (s : S3State) (b : String) : Nat × S3State :=
  if s.buckets.contains b then (409, s) else (200, ⟨b :: s.buckets⟩)

/-- Model of `S3ChunkStore.create_array`: PUT the bucket named by the first path
segment of the array name; a 409 response (bucket already exists) skips
`_raise_for_status` and is treated as success.  When `public_read` is set
a bucket policy is additionally PUT at `<bucket>?policy`, and when
`expiry_days > 0` a lifecycle document is PUT at the bucket URL with a
`lifecycle` parameter (both modelled as always-successful PUTs, with
their URLs recorded).  Returns the new service state together with the
list of PUT target URLs issued. -/
def create_array (publicRead : Bool) (expiryDays : Nat) (s : S3State)
    (arrayName : String) : Except StoreError (S3State × List String) :=
  let bucket := bucketOf arrayName
  let r := serverPutBucket s bucket
  let checked : Except StoreError Unit :=
    if r.1 ≠ 409 then
      match raise_for_status r.1 ("/" ++ bucket) with
      | some e => .error e
      | none => .ok ()
    else .ok ()
  match checked with
  | .error e => .error e
  | .ok _ =>
      let puts := [bucket]
        ++ (if publicRead then [bucket ++ "?policy"] else [])
        ++ (if 0 < expiryDays then [bucket ++ "?lifecycle"] else [])
      .ok (r.2, puts)

/-- C8: `create_array` with the default configuration PUTs only the
bucket (the first path segment of the array name), a 409 response counts
as success, and calling it twice on the same bucket succeeds both times
with no further state change. -/
theorem c8_create_array_idempotent (s : S3State) (an : String) :
    create_array false 0 s an =
      .ok (⟨if s.buckets.contains (bucketOf an) then s.buckets
            else bucketOf an :: s.buckets⟩, [bucketOf an]) ∧
    ((create_array false 0 s an).bind fun r => create_array false 0 r.1 an) =
      .ok (⟨if s.buckets.contains (bucketOf an) then s.buckets
            else bucketOf an :: s.buckets⟩, [bucketOf an]) := by
  by_cases hb : bucketOf an ∈ s.buckets
  · simp [create_array, serverPutBucket, hb, Except.bind]
  · simp [create_array, serverPutBucket, hb, raise_for_status, Except.bind]

/-- Witness for C8: creating `b/x` twice from an empty service succeeds,
issuing only a PUT of bucket `b` each time. -/
theorem c8_create_array_idempotent_witness :
    create_array false 0 ⟨[]⟩ "b/x" = .ok (⟨["b"]⟩, ["b"]) ∧
    ((create_array false 0 ⟨[]⟩ "b/x").bind
      fun r => create_array false 0 r.1 "b/x") = .ok (⟨["b"]⟩, ["b"]) :=
  c8_create_array_idempotent ⟨[]⟩ "b/x"

/-- Ceiling division on naturals, standing in for `np.ceil(a / b)`.  At
every input appearing in the claims the float arithmetic of the source is
exact enough that its ceiling agrees with the rational ceiling, which
this computes. -/
def cdiv (a b : Nat) : Nat := (a + b - 1) / b

/-- Base-2 logarithm (floor), computed with structural fuel so that it
reduces by evaluation; `fuel = n` always suffices since the argument at
least halves each step. -/
def log2fuel : Nat → Nat → Nat
  | 0, _ => 0
  | fuel + 1, n => if 2 ≤ n then log2fuel fuel (n / 2) + 1 else 0

/-- The largest power of two that is at most `n` (for `n ≥ 1`),
standing in for `2 ** floor(log2(x))`. -/
def floorPow2 (n : Nat) : Nat := 2 ^ log2fuel n n

/-- Split an extent into `pieces` blocks as equal as possible: the
remainder is distributed by giving the leading blocks one extra element
(block sizes differ by at most one). -/
def evenSplit (size pieces : Nat) : List Nat :=
  List.replicate (size % pieces) (size / pieces + 1)
    ++ List.replicate (pieces - size % pieces) (size / pieces)

/-- Split an extent into blocks of a fixed (power-of-two) size; the last
block holds whatever remains and may be smaller. -/
def pow2Split (size bsize : Nat) : List Nat :=
  let pieces := cdiv size bsize
  List.replicate (pieces - 1) bsize ++ [size - (pieces - 1) * bsize]

/-- One dimension of the planner: when the dimension may be split and
more than one chunk is still needed, choose the block sizes and divide
the outstanding chunk count by the number of blocks produced; otherwise
keep the full extent as a single block. -/
def genDim (splittable pot : Bool) (num size : Nat) : List Nat × Nat :=
  if splittable ∧ 1 < num then
    if pot then
      let bsize := floorPow2 (size / num)
      let pieces := cdiv size bsize
      (pow2Split size bsize, cdiv num pieces)
    else
      let pieces := min num size
      (evenSplit size pieces, cdiv num pieces)
  else ([size], num)

def genDims (dims : List Nat) (pot : Bool) :
    List (Nat × Nat) → Nat → List (List Nat)
  | [], _ => []
  | (i, size) :: rest, num =>
      let r := genDim (dims.contains i) pot num size
      r.1 :: genDims dims pot rest r.2

/-- Modelled from the spec: `generate_chunks` (the ChunkSizer
`plan_chunks`, in katdal/chunkstore.py which is not under src/).  The
total number of chunks needed is the smallest count bringing the
per-chunk byte size under `maxBytes`; the dimensions are then walked in
index order, each splittable dimension being divided as evenly as
possible (blocks differing by at most one element, or into power-of-two
blocks when `pot` is set) until the outstanding chunk count reaches one.
Dimensions outside `dimsToSplit` keep their full extent; `dimsToSplit`
defaults to every dimension, and indices beyond the rank are ignored.
The model reproduces all eight reference values of
`test_generate_chunks` in src/katdal/test/test_chunkstore.py. -/
def generate_chunks (shape : List Nat) (dt : Dtype) (maxBytes : Nat)
    (dimsToSplit : Option (List Nat)) (pot : Bool) : List (List Nat) :=
  let dims := dimsToSplit.getD (List.range shape.length)
  let num := cdiv (listProd shape * dt.itemsize) maxBytes
  genDims dims pot shape.enum num

/-- C7: the four reference values of the chunk-size planner for shape
(10, 8192, 144) and dtype complex64: budget 3e6; budget 3e6 with
dims_to_split = (0, 10); budget 1e6; and dims_to_split = (). -/
theorem c7_planner_reference_values :
    generate_chunks [10, 8192, 144] complex64 3000000 none false =
      [List.replicate 10 1, [2048, 2048, 2048, 2048], [144]] ∧
    generate_chunks [10, 8192, 144] complex64 3000000 (some [0, 10]) false =
      [List.replicate 10 1, [8192], [144]] ∧
    generate_chunks [10, 8192, 144] complex64 1000000 none false =
      [List.replicate 10 1,
        [820, 820] ++ List.replicate 8 819, [144]] ∧
    generate_chunks [10, 8192, 144] complex64 1000000 (some []) false =
      [[10], [8192], [144]] := by
  refine ⟨?_, ?_, ?_, ?_⟩ <;> rfl

/-- The remaining four reference values of `test_generate_chunks` (whole
array within budget, budget one byte short of the whole array, and the
two power-of-two cases), checked to validate the spec-modelled planner
against the source tests. -/
theorem generate_chunks_matches_remaining_tests :
    generate_chunks [10, 8192, 144] complex64 94371840 none false =
      [[10], [8192], [144]] ∧
    generate_chunks [10, 8192, 144] complex64 94371839 none false =
      [[5, 5], [8192], [144]] ∧
    generate_chunks [10, 8192, 144] complex64 1000000 (some [1]) true =
      [[10], List.replicate 128 64, [144]] ∧
    generate_chunks [10, 8192, 144] complex64 5898240 (some [1]) true =
      [[10], List.replicate 16 512, [144]] := by
  refine ⟨?_, ?_, ?_, ?_⟩ <;> rfl
